import Mathlib

/-
  Verification of the MeanderFlow core pipeline
  (src/utils/geomorphology.ts: generateMeander, calculateHydraulics,
  assessEcologicalHealth, over the data model of src/types.ts).

  Numbers are modelled as exact rationals.  The transcendental geodesic
  primitives of the turf library (distance, bezierSpline, along, bearing,
  destination) and the transcendental pieces of the JS Math object
  (pow with fractional exponent, sin, PI) cannot be evaluated exactly, so
  they are abstracted as explicit function-bundles (TurfGeo, JsMath) that
  every definition and theorem receives as an argument; JsMath carries the
  two order facts about Math.pow on nonnegative bases that the velocity
  monotonicity proof uses.  Everything else is translated literally from
  the source.
-/

/-- A GeoJSON position, written (longitude, latitude) as in the turf
coordinate arrays built by the source. -/
abbrev Coord : Type := ℚ × ℚ

/-- GeoPoint from src/types.ts: a latitude/longitude pair. -/
structure GeoPoint where
  lat : ℚ
  lng : ℚ
deriving DecidableEq, Repr

/-- A GeoJSON LineString geometry: just its coordinate list (the Feature
wrapper of the source carries no data used by the pipeline). -/
structure LineString where
  coordinates : List Coord
deriving DecidableEq, Repr

/-- StreamParams from src/types.ts. -/
structure StreamParams where
  valleySlope : ℚ
  bankfullWidth : ℚ
  bankfullDepth : ℚ
  manningsN : ℚ
  sinuosityTarget : ℚ
  wavelength : ℚ
  amplitude : ℚ
  valleyLine : List GeoPoint
deriving DecidableEq, Repr

/-- HydraulicMetrics from src/types.ts. -/
structure HydraulicMetrics where
  originalSlope : ℚ
  newSlope : ℚ
  sinuosityIndex : ℚ
  originalVelocity : ℚ
  newVelocity : ℚ
  shearStress : ℚ
  streamPower : ℚ
  channelLength : ℚ
  valleyLength : ℚ
  radiusOfCurvature : ℚ
deriving DecidableEq, Repr

/-- StreamHealth from src/types.ts. -/
inductive StreamHealth where
  | DEGRADED
  | RECOVERING
  | STABLE
  | HIGH_RISK
deriving DecidableEq, Repr

/-- The two warning strings pushed by assessEcologicalHealth, modelled
structurally: the avulsion warning carries the radius of curvature, the
bankfull width and the rcRatio value that the source interpolates (via
toFixed) into the message text; the straightened warning is a fixed text. -/
inductive Warning where
  | avulsionRisk (radiusOfCurvature bankfullWidth rcOverW : ℚ)
  | straightened
deriving DecidableEq, Repr

/-- EcologicalMetrics from src/types.ts. -/
structure EcologicalMetrics where
  habitatUnits : ℤ
  hyporheicPotential : String
  sedimentTransport : String
deriving DecidableEq, Repr

/-- The anonymous record returned by assessEcologicalHealth. -/
structure EcoAssessment where
  stats : EcologicalMetrics
  health : StreamHealth
  warnings : List Warning
deriving DecidableEq, Repr

/-- The geodesic primitives of the turf library used by the pipeline,
bundled as an abstract backend: dist is turf.distance in meters (the
per-segment measure behind turf.length), bezierSpline is the coordinate
transform of turf.bezierSpline at resolution 10000 and sharpness 0.85,
along/bearing/destination are the corresponding turf functions with
meter units. -/
structure TurfGeo where
  dist : Coord → Coord → ℚ
  bezierSpline : List Coord → List Coord
  along : List Coord → ℚ → Coord
  bearing : Coord → Coord → ℚ
  destination : Coord → ℚ → ℚ → Coord

/-- The pieces of the JS Math object the pipeline uses, with the two
order facts about Math.pow on nonnegative bases (pow of a nonnegative
base is nonnegative, and pow at exponent 0.5 is monotone on nonnegative
bases) that hold of the real power function Math.pow implements. -/
structure JsMath where
  pow : ℚ → ℚ → ℚ
  sin : ℚ → ℚ
  pi : ℚ
  pow_nonneg : ∀ x y : ℚ, 0 ≤ x → 0 ≤ pow x y
  pow_half_mono : ∀ x y : ℚ, 0 ≤ x → x ≤ y → pow x 0.5 ≤ pow y 0.5

/-- turf.length with meter units: the sum of the segment measures of the
coordinate list (0 for fewer than two coordinates). -/
def turfLength (t : TurfGeo) : List Coord → ℚ
  | a :: b :: rest => t.dist a b + turfLength t (b :: rest)
  | _ => 0

/-- turf.lineString from @turf/helpers: validates its coordinate array
and throws "coordinates must be an array of two or more positions" when
it has fewer than two entries, otherwise wraps it as a LineString. -/
def lineString (coordinates : List Coord) : Except String LineString :=
  if coordinates.length < 2 then
    Except.error "coordinates must be an array of two or more positions"
  else
    Except.ok { coordinates := coordinates }

/-- One iteration of the sampling loop of generateMeander (source lines
40 to 71), at loop index i, for a positive totalSteps: the center point
at fraction i / totalSteps of the smoothed valley, the forward bearing
sampled one meter ahead, the endpoint-damped sine offset, and the
geodesic displacement to the meander point. -/
def meanderPoint (t : TurfGeo) (m : JsMath) (smoothedValley : List Coord)
    (valleyLength amplitude safeWavelength : ℚ) (totalSteps : ℤ) (i : ℕ) : Coord :=
  let fraction : ℚ := (i : ℚ) / (totalSteps : ℚ)
  let distanceAlongValley := fraction * valleyLength
  let centerPoint := t.along smoothedValley distanceAlongValley
  let lookAheadDist := min (distanceAlongValley + 1) valleyLength
  let lookAheadPoint := t.along smoothedValley lookAheadDist
  let bearing := t.bearing centerPoint lookAheadPoint
  let dampening := m.sin (fraction * m.pi)
  let currentAmplitude := amplitude * m.pow dampening 0.2
  let offset := currentAmplitude * m.sin ((2 * m.pi / safeWavelength) * distanceAlongValley)
  let offsetBearing := bearing + 90
  t.destination centerPoint |offset| (if offset > 0 then offsetBearing else offsetBearing + 180)

/-- generateMeander from src/utils/geomorphology.ts.  pointsPerWave is an
explicit argument here (the source defaults it to 20; every caller in the
repository uses the default).

Failure modelling, from the JS semantics of the source and turf:
* fewer than 2 valley points: the source executes turf.lineString of the
  empty array, which throws its two-or-more-positions validation error;
* totalSteps equal to 0 (degenerate smoothed axis of length 0): the single
  loop iteration computes fraction as 0 / 0, which is NaN in JS; the NaN
  distance makes turf.along walk past the end of its coordinate array and
  throw, and even a successfully produced lone point would be rejected by
  the final turf.lineString call, which requires two or more positions.
  A negative totalSteps cannot arise from real turf lengths, but would
  run the loop zero times and fail in the final turf.lineString the same
  way, so all totalSteps below 1 are modelled as that error. -/
def generateMeander (t : TurfGeo) (m : JsMath) (valleyPoints : List GeoPoint)
    (amplitude wavelength : ℚ) (pointsPerWave : ℚ) : Except String LineString :=
  if valleyPoints.length < 2 then
    lineString []
  else
    let coords := valleyPoints.map fun p => ((p.lng, p.lat) : Coord)
    let smoothedValley := t.bezierSpline coords
    let valleyLength := turfLength t smoothedValley
    let safeWavelength := max wavelength 10
    let numWaves := valleyLength / safeWavelength
    let totalSteps : ℤ := ⌈numWaves * pointsPerWave⌉
    if totalSteps ≤ 0 then
      Except.error "coordinates must be an array of two or more positions"
    else
      lineString ((List.range (totalSteps.toNat + 1)).map
        (meanderPoint t m smoothedValley valleyLength amplitude safeWavelength totalSteps))

/-- calculateHydraulics from src/utils/geomorphology.ts.  The only
throwing call is turf.lineString over the valley points (it validates
that there are at least two); everything after it is straight-line
arithmetic translated literally, with Math.pow as the abstract m.pow. -/
def calculateHydraulics (m : JsMath) (t : TurfGeo) (params : StreamParams)
    (meanderGeo : LineString) : Except String HydraulicMetrics :=
  let coords := params.valleyLine.map fun p => ((p.lng, p.lat) : Coord)
  match lineString coords with
  | Except.error e => Except.error e
  | Except.ok valleyLine =>
    let valleyLength := turfLength t valleyLine.coordinates
    let channelLength := turfLength t meanderGeo.coordinates
    let si := if valleyLength > 0 then max 1 (channelLength / valleyLength) else 1
    let valleySlopeDecimal := params.valleySlope / 100
    let channelSlopeDecimal := if si > 0 then valleySlopeDecimal / si else valleySlopeDecimal
    let w := params.bankfullWidth
    let d := params.bankfullDepth
    let hydraulicRadius := (w * d) / (w + 2 * d)
    let calculateVelocity := fun (slope : ℚ) =>
      (1 / params.manningsN) * m.pow hydraulicRadius (2 / 3) * m.pow slope 0.5
    let vOriginal := calculateVelocity valleySlopeDecimal
    let vNew := calculateVelocity channelSlopeDecimal
    let shearStress := 1000 * 9.81 * hydraulicRadius * channelSlopeDecimal
    let area := w * d
    let q := vNew * area
    let streamPower := 1000 * 9.81 * q * channelSlopeDecimal
    let radiusOfCurvature := if params.amplitude > 0 then
        m.pow params.wavelength 2 / (4 * m.pow m.pi 2 * params.amplitude)
      else 0
    Except.ok {
      originalSlope := valleySlopeDecimal
      newSlope := channelSlopeDecimal
      sinuosityIndex := si
      originalVelocity := vOriginal
      newVelocity := vNew
      shearStress := shearStress
      streamPower := streamPower
      channelLength := channelLength
      valleyLength := valleyLength
      radiusOfCurvature := radiusOfCurvature }

/-- assessEcologicalHealth from src/utils/geomorphology.ts.  The source
mutates health and pushes onto warnings inside one if/else-if chain; that
chain is rendered as a single pair-valued conditional.  rcOverW is the
rcRatio of the source, stressQuot its stressRatio; the sequential
reassignments of hyporheic and sediment are rendered as shadowing lets in
source order, so the later threshold wins exactly as in the source. -/
def assessEcologicalHealth (metrics : HydraulicMetrics) (params : StreamParams) :
    EcoAssessment :=
  let habitatSpacing := 6 * params.bankfullWidth
  let habitatUnits := ⌊metrics.channelLength / habitatSpacing⌋
  let rcOverW := if params.bankfullWidth > 0 then
      metrics.radiusOfCurvature / params.bankfullWidth
    else 10
  let healthWarnings : StreamHealth × List Warning :=
    if rcOverW < 2 ∧ metrics.sinuosityIndex > 1.05 then
      (StreamHealth.HIGH_RISK,
        [Warning.avulsionRisk metrics.radiusOfCurvature params.bankfullWidth rcOverW])
    else if metrics.sinuosityIndex < 1.2 then
      (StreamHealth.DEGRADED, [Warning.straightened])
    else if metrics.sinuosityIndex > 1.2 ∧ metrics.sinuosityIndex < 1.5 then
      (StreamHealth.RECOVERING, [])
    else
      (StreamHealth.STABLE, [])
  let hyporheic := "Low"
  let hyporheic := if metrics.sinuosityIndex > 1.3 then "Medium" else hyporheic
  let hyporheic := if metrics.sinuosityIndex > 1.5 then "High" else hyporheic
  let stressQuot := if metrics.originalSlope > 0 then
      metrics.shearStress /
        (1000 * 9.81 *
          ((params.bankfullWidth * params.bankfullDepth) /
            (params.bankfullWidth + 2 * params.bankfullDepth)) *
          metrics.originalSlope)
    else 1
  let sediment := "Equilibrium"
  let sediment := if stressQuot < 0.6 then "Aggradation (Deposition)" else sediment
  let sediment := if stressQuot > 1.2 then "Degradation (Scour)" else sediment
  { stats := {
      habitatUnits := habitatUnits
      hyporheicPotential := hyporheic
      sedimentTransport := sediment }
    health := healthWarnings.1
    warnings := healthWarnings.2 }


/-- The (lng, lat) coordinate array that calculateHydraulics builds from
params.valleyLine (source line 81). -/
def valleyCoords (params : StreamParams) : List Coord :=
  params.valleyLine.map fun p => ((p.lng, p.lat) : Coord)

/-- The guarded curvature ratio of source line 149 (rcRatio). -/
def rcGuarded (metrics : HydraulicMetrics) (params : StreamParams) : ℚ :=
  if params.bankfullWidth > 0 then
    metrics.radiusOfCurvature / params.bankfullWidth
  else 10

/-- The guarded stress quotient of source lines 167 to 169 (stressRatio). -/
def stressGuarded (metrics : HydraulicMetrics) (params : StreamParams) : ℚ :=
  if metrics.originalSlope > 0 then
    metrics.shearStress /
      (1000 * 9.81 *
        ((params.bankfullWidth * params.bankfullDepth) /
          (params.bankfullWidth + 2 * params.bankfullDepth)) *
        metrics.originalSlope)
  else 1

/-- A concrete geometry backend for evaluating the pipeline on test
inputs: segment measure 1 between distinct points and 0 between equal
points (matching turf.distance on coincident points), identity
smoothing, and trivial sampling primitives. -/
def unitGeo : TurfGeo where
  dist := fun a b => if a.1 = b.1 ∧ a.2 = b.2 then 0 else 1
  bezierSpline := fun l => l
  along := fun _ _ => (0, 0)
  bearing := fun _ _ => 0
  destination := fun p _ _ => p

/-- A concrete Math backend for evaluating the pipeline on test inputs:
pow is constantly 1 (which satisfies both order facts), sin is constantly
0, and pi is the double-precision value of Math.PI. -/
def onesMath : JsMath where
  pow := fun _ _ => 1
  sin := fun _ => 0
  pi := 3.141592653589793
  pow_nonneg := fun _ _ _ => by norm_num
  pow_half_mono := fun _ _ _ _ => le_refl 1

/-- Concrete parameters for evaluation: a two-point valley line (unit
geodesic length under unitGeo), zero slope and amplitude, unit width,
depth and roughness. -/
def witnessParams : StreamParams where
  valleySlope := 0
  bankfullWidth := 1
  bankfullDepth := 1
  manningsN := 1
  sinuosityTarget := 1
  wavelength := 100
  amplitude := 0
  valleyLine := [⟨0, 0⟩, ⟨0, 1⟩]

/-- A concrete three-point meander path of length 2 under unitGeo. -/
def witnessGeo : LineString := ⟨[(0, 0), (1, 0), (2, 0)]⟩

/-- The metrics calculateHydraulics produces from onesMath, unitGeo,
witnessParams and witnessGeo (channel length 2 over valley length 1, so
sinuosity 2). -/
def witnessMetrics : HydraulicMetrics where
  originalSlope := 0
  newSlope := 0
  sinuosityIndex := 2
  originalVelocity := 1
  newVelocity := 1
  shearStress := 0
  streamPower := 0
  channelLength := 2
  valleyLength := 1
  radiusOfCurvature := 0

/-- Concrete metrics for exercising the health classifier: sinuosity 1.3
and a radius of curvature of 100. -/
def witnessMetricsB : HydraulicMetrics where
  originalSlope := 0
  newSlope := 0
  sinuosityIndex := 1.3
  originalVelocity := 0
  newVelocity := 0
  shearStress := 0
  streamPower := 0
  channelLength := 0
  valleyLength := 0
  radiusOfCurvature := 100

/-- Concrete parameters with bankfull width 8 (curvature ratio 12.5). -/
def witnessParamsB : StreamParams where
  valleySlope := 2.5
  bankfullWidth := 8
  bankfullDepth := 1.2
  manningsN := 0.045
  sinuosityTarget := 1
  wavelength := 100
  amplitude := 20
  valleyLine := []

/-- Concrete parameters with bankfull width 0 for the ratio guard. -/
def witnessParamsC : StreamParams where
  valleySlope := 2.5
  bankfullWidth := 0
  bankfullDepth := 1.2
  manningsN := 0.045
  sinuosityTarget := 1
  wavelength := 100
  amplitude := 20
  valleyLine := []

set_option maxHeartbeats 1600000 in
/-- The assessment record written as one nested conditional per field,
obtained by resolving the sequential reassignments of the source. -/
lemma assessEcologicalHealth_eq (metrics : HydraulicMetrics) (params : StreamParams) :
    assessEcologicalHealth metrics params =
      { stats := {
          habitatUnits := ⌊metrics.channelLength / (6 * params.bankfullWidth)⌋
          hyporheicPotential :=
            if metrics.sinuosityIndex > 1.5 then "High"
            else if metrics.sinuosityIndex > 1.3 then "Medium"
            else "Low"
          sedimentTransport :=
            if stressGuarded metrics params > 1.2 then "Degradation (Scour)"
            else if stressGuarded metrics params < 0.6 then "Aggradation (Deposition)"
            else "Equilibrium" }
        health :=
          if rcGuarded metrics params < 2 ∧ metrics.sinuosityIndex > 1.05 then
            StreamHealth.HIGH_RISK
          else if metrics.sinuosityIndex < 1.2 then StreamHealth.DEGRADED
          else if metrics.sinuosityIndex > 1.2 ∧ metrics.sinuosityIndex < 1.5 then
            StreamHealth.RECOVERING
          else StreamHealth.STABLE
        warnings :=
          if rcGuarded metrics params < 2 ∧ metrics.sinuosityIndex > 1.05 then
            [Warning.avulsionRisk metrics.radiusOfCurvature params.bankfullWidth
              (rcGuarded metrics params)]
          else if metrics.sinuosityIndex < 1.2 then [Warning.straightened]
          else [] } := by
  simp only [assessEcologicalHealth, rcGuarded, stressGuarded]
  split_ifs <;> rfl

/-- The sinuosity expression of source line 89 is never below 1. -/
lemma one_le_sinuosity (vl cl : ℚ) :
    1 ≤ (if vl > 0 then max 1 (cl / vl) else 1) := by
  split_ifs with h
  · exact le_max_left 1 _
  · exact le_refl 1

/-- Field characterization of a successful calculateHydraulics run: every
metric named by a claim equals the source formula evaluated on the inputs. -/
lemma calculateHydraulics_fields (m : JsMath) (t : TurfGeo) (params : StreamParams)
    (geo : LineString) (M : HydraulicMetrics)
    (h : calculateHydraulics m t params geo = Except.ok M) :
    M.valleyLength = turfLength t (valleyCoords params) ∧
    M.channelLength = turfLength t geo.coordinates ∧
    M.sinuosityIndex =
      (if M.valleyLength > 0 then max 1 (M.channelLength / M.valleyLength) else 1) ∧
    M.originalSlope = params.valleySlope / 100 ∧
    M.newSlope =
      (if M.sinuosityIndex > 0 then M.originalSlope / M.sinuosityIndex
       else M.originalSlope) ∧
    M.originalVelocity =
      (1 / params.manningsN) *
        m.pow ((params.bankfullWidth * params.bankfullDepth) /
          (params.bankfullWidth + 2 * params.bankfullDepth)) (2 / 3) *
        m.pow M.originalSlope 0.5 ∧
    M.newVelocity =
      (1 / params.manningsN) *
        m.pow ((params.bankfullWidth * params.bankfullDepth) /
          (params.bankfullWidth + 2 * params.bankfullDepth)) (2 / 3) *
        m.pow M.newSlope 0.5 ∧
    M.shearStress =
      1000 * 9.81 *
        ((params.bankfullWidth * params.bankfullDepth) /
          (params.bankfullWidth + 2 * params.bankfullDepth)) *
        M.newSlope := by
  simp only [calculateHydraulics, lineString, List.length_map] at h
  by_cases hl : params.valleyLine.length < 2
  · simp only [if_pos hl] at h
    cases h
  · simp only [if_neg hl] at h
    cases h
    refine ⟨rfl, rfl, rfl, rfl, rfl, rfl, rfl, rfl⟩

/-- With at least two valley points calculateHydraulics always succeeds. -/
lemma calculateHydraulics_isOk (m : JsMath) (t : TurfGeo) (params : StreamParams)
    (geo : LineString) (h2 : 2 ≤ params.valleyLine.length) :
    ∃ M, calculateHydraulics m t params geo = Except.ok M := by
  simp only [calculateHydraulics, lineString, List.length_map]
  have hl : ¬ params.valleyLine.length < 2 := by omega
  simp only [if_neg hl]
  exact ⟨_, rfl⟩

/-- C1: for a valley line of at least 2 points, calculateHydraulics
succeeds, and when the valley has positive geodesic length the returned
sinuosityIndex is exactly max 1 (channelLength / valleyLength); whenever
the function returns at all, the returned sinuosityIndex is at least 1;
and a degenerate valley of geodesic length 0 reports exactly 1. -/
theorem calculateHydraulics_sinuosity_spec (m : JsMath) (t : TurfGeo)
    (params : StreamParams) (geo : LineString) :
    (∀ M, calculateHydraulics m t params geo = Except.ok M → 1 ≤ M.sinuosityIndex) ∧
    (2 ≤ params.valleyLine.length →
      ∃ M, calculateHydraulics m t params geo = Except.ok M ∧
        (0 < turfLength t (valleyCoords params) →
          M.sinuosityIndex =
            max 1 (turfLength t geo.coordinates / turfLength t (valleyCoords params))) ∧
        (turfLength t (valleyCoords params) = 0 → M.sinuosityIndex = 1)) := by
  constructor
  · intro M h
    obtain ⟨hvl, hcl, hsi, -⟩ := calculateHydraulics_fields m t params geo M h
    rw [hsi]
    exact one_le_sinuosity _ _
  · intro h2
    obtain ⟨M, hM⟩ := calculateHydraulics_isOk m t params geo h2
    obtain ⟨hvl, hcl, hsi, -⟩ := calculateHydraulics_fields m t params geo M hM
    refine ⟨M, hM, ?_, ?_⟩
    · intro hpos
      rw [hsi, hvl, hcl]
      rw [if_pos hpos]
    · intro hzero
      rw [hsi, hvl, hzero]
      norm_num

/-- C2: the health classification is decided by the first matching rule
in source order: the avulsion rule (guarded curvature ratio below 2 and
sinuosity above 1.05) gives HIGH_RISK with the warning citing radius,
width and ratio; otherwise sinuosity below 1.2 gives DEGRADED with the
straightened warning; otherwise sinuosity strictly between 1.2 and 1.5
gives RECOVERING; otherwise STABLE — in particular, when the avulsion
rule does not fire, sinuosity exactly 1.2 or at least 1.5 gives STABLE. -/
theorem assessEcologicalHealth_first_match_rules (metrics : HydraulicMetrics)
    (params : StreamParams) :
    (rcGuarded metrics params < 2 ∧ metrics.sinuosityIndex > 1.05 →
      (assessEcologicalHealth metrics params).health = StreamHealth.HIGH_RISK ∧
      (assessEcologicalHealth metrics params).warnings =
        [Warning.avulsionRisk metrics.radiusOfCurvature params.bankfullWidth
          (rcGuarded metrics params)]) ∧
    (¬(rcGuarded metrics params < 2 ∧ metrics.sinuosityIndex > 1.05) →
      (metrics.sinuosityIndex < 1.2 →
        (assessEcologicalHealth metrics params).health = StreamHealth.DEGRADED ∧
        (assessEcologicalHealth metrics params).warnings = [Warning.straightened]) ∧
      (¬ metrics.sinuosityIndex < 1.2 →
        (metrics.sinuosityIndex > 1.2 ∧ metrics.sinuosityIndex < 1.5 →
          (assessEcologicalHealth metrics params).health = StreamHealth.RECOVERING) ∧
        (¬(metrics.sinuosityIndex > 1.2 ∧ metrics.sinuosityIndex < 1.5) →
          (assessEcologicalHealth metrics params).health = StreamHealth.STABLE)) ∧
      (metrics.sinuosityIndex = 1.2 →
        (assessEcologicalHealth metrics params).health = StreamHealth.STABLE) ∧
      (1.5 ≤ metrics.sinuosityIndex →
        (assessEcologicalHealth metrics params).health = StreamHealth.STABLE)) := by
  rw [assessEcologicalHealth_eq]
  refine ⟨fun h1 => ?_, fun h1 => ⟨fun h2 => ?_, fun h2 => ⟨fun h3 => ?_, fun h3 => ?_⟩,
    fun heq => ?_, fun hge => ?_⟩⟩
  · simp [if_pos h1]
  · simp [if_neg h1, if_pos h2]
  · simp only [if_neg h1, if_neg h2, if_pos h3]
  · simp only [if_neg h1, if_neg h2, if_neg h3]
  · have h2 : ¬ metrics.sinuosityIndex < 1.2 := by rw [heq]; exact lt_irrefl _
    have h3 : ¬ (metrics.sinuosityIndex > 1.2 ∧ metrics.sinuosityIndex < 1.5) := by
      rw [heq]; simp
    simp only [if_neg h1, if_neg h2, if_neg h3]
  · have h2 : ¬ metrics.sinuosityIndex < 1.2 := by linarith
    have h3 : ¬ (metrics.sinuosityIndex > 1.2 ∧ metrics.sinuosityIndex < 1.5) := by
      rintro ⟨-, hlt⟩; linarith
    simp only [if_neg h1, if_neg h2, if_neg h3]

/-- C10: assessEcologicalHealth returns at most one warning, and the
warning list is nonempty exactly when the health is HIGH_RISK or
DEGRADED; RECOVERING and STABLE always come with no warnings. -/
theorem assessEcologicalHealth_warnings_iff (metrics : HydraulicMetrics)
    (params : StreamParams) :
    (assessEcologicalHealth metrics params).warnings.length ≤ 1 ∧
    ((assessEcologicalHealth metrics params).warnings ≠ [] ↔
      (assessEcologicalHealth metrics params).health = StreamHealth.HIGH_RISK ∨
      (assessEcologicalHealth metrics params).health = StreamHealth.DEGRADED) := by
  rw [assessEcologicalHealth_eq]
  split_ifs <;> simp

/-- C8: when bankfullWidth is 0 the curvature ratio is replaced by the
sentinel value before any division happens, so the avulsion rule can
never fire: the health is never HIGH_RISK and no avulsion warning is
emitted. -/
theorem assessEcologicalHealth_zero_width_no_high_risk (metrics : HydraulicMetrics)
    (params : StreamParams) (hw : params.bankfullWidth = 0) :
    (assessEcologicalHealth metrics params).health ≠ StreamHealth.HIGH_RISK ∧
    ((assessEcologicalHealth metrics params).warnings = [] ∨
      (assessEcologicalHealth metrics params).warnings = [Warning.straightened]) := by
  have hrc : rcGuarded metrics params = 10 := by
    unfold rcGuarded
    rw [if_neg]
    rw [hw]
    norm_num
  have h1 : ¬ (rcGuarded metrics params < 2 ∧ metrics.sinuosityIndex > 1.05) := by
    rw [hrc]
    rintro ⟨hlt, -⟩
    norm_num at hlt
  rw [assessEcologicalHealth_eq]
  simp only [if_neg h1]
  split_ifs <;> simp

/-- C4: for a StreamParams with nonnegative valleySlope, a successful
calculateHydraulics run returns newSlope = originalSlope / sinuosityIndex,
and under the StreamParams validity bounds of the data model (positive
bankfull width, depth and Manning roughness), newVelocity does not exceed
originalVelocity whenever sinuosityIndex exceeds 1. -/
theorem calculateHydraulics_slope_velocity (m : JsMath) (t : TurfGeo)
    (params : StreamParams) (geo : LineString) (M : HydraulicMetrics)
    (hok : calculateHydraulics m t params geo = Except.ok M)
    (hs : 0 ≤ params.valleySlope) :
    M.newSlope = M.originalSlope / M.sinuosityIndex ∧
    (0 < params.bankfullWidth → 0 < params.bankfullDepth → 0 < params.manningsN →
      1 < M.sinuosityIndex → M.newVelocity ≤ M.originalVelocity) := by
  obtain ⟨hvl, hcl, hsi, hs0, hsn, hvo, hvn, -⟩ :=
    calculateHydraulics_fields m t params geo M hok
  have hsi1 : 1 ≤ M.sinuosityIndex := by rw [hsi]; exact one_le_sinuosity _ _
  have hsipos : M.sinuosityIndex > 0 := lt_of_lt_of_le one_pos hsi1
  have hnew : M.newSlope = M.originalSlope / M.sinuosityIndex := by
    rw [hsn, if_pos hsipos]
  refine ⟨hnew, fun hw hd hn hgt => ?_⟩
  have hs0' : 0 ≤ M.originalSlope := by
    rw [hs0]
    positivity
  have hsle : M.newSlope ≤ M.originalSlope := by
    rw [hnew]
    exact div_le_self hs0' hsi1
  have hsnn : 0 ≤ M.newSlope := by
    rw [hnew]
    exact div_nonneg hs0' (le_of_lt hsipos)
  have hpow : m.pow M.newSlope 0.5 ≤ m.pow M.originalSlope 0.5 :=
    m.pow_half_mono _ _ hsnn hsle
  have hradius : 0 ≤ (params.bankfullWidth * params.bankfullDepth) /
      (params.bankfullWidth + 2 * params.bankfullDepth) := by positivity
  have hcoeff : 0 ≤ (1 / params.manningsN) *
      m.pow ((params.bankfullWidth * params.bankfullDepth) /
        (params.bankfullWidth + 2 * params.bankfullDepth)) (2 / 3) := by
    have := m.pow_nonneg _ (2 / 3) hradius
    positivity
  rw [hvo, hvn]
  exact mul_le_mul_of_nonneg_left hpow hcoeff

/-- C9: feeding the metrics of a successful calculateHydraulics run into
assessEcologicalHealth with the same params never yields the Degradation
(Scour) sediment regime: when originalSlope is positive the stress
quotient collapses to 1 / sinuosityIndex, which is at most 1 because the
sinuosity is clamped at 1 (when the hydraulic radius is zero the quotient
degenerates to 0, and when originalSlope is not positive the guard makes
it 1); in all cases it stays at or below the 1.2 threshold. -/
theorem pipeline_sediment_never_scour (m : JsMath) (t : TurfGeo)
    (params : StreamParams) (geo : LineString) (M : HydraulicMetrics)
    (hok : calculateHydraulics m t params geo = Except.ok M) :
    (assessEcologicalHealth M params).stats.sedimentTransport ≠
      "Degradation (Scour)" := by
  obtain ⟨hvl, hcl, hsi, hs0, hsn, hvo, hvn, hss⟩ :=
    calculateHydraulics_fields m t params geo M hok
  have hsi1 : 1 ≤ M.sinuosityIndex := by rw [hsi]; exact one_le_sinuosity _ _
  have hsipos : M.sinuosityIndex > 0 := lt_of_lt_of_le one_pos hsi1
  have hquot : stressGuarded M params ≤ 1 := by
    unfold stressGuarded
    split_ifs with hpos
    · rw [hss, hsn, if_pos hsipos]
      set R := (params.bankfullWidth * params.bankfullDepth) /
        (params.bankfullWidth + 2 * params.bankfullDepth) with hR
      by_cases hR0 : R = 0
      · rw [hR0]
        norm_num
      · have hk : (1000 : ℚ) * 9.81 * R ≠ 0 := by
          intro hzero
          apply hR0
          have : (1000 : ℚ) * 9.81 ≠ 0 := by norm_num
          exact (mul_eq_zero.mp hzero).resolve_left this
        have ho : M.originalSlope ≠ 0 := ne_of_gt hpos
        have hsine : M.sinuosityIndex ≠ 0 := ne_of_gt hsipos
        have key : 1000 * 9.81 * R * (M.originalSlope / M.sinuosityIndex) /
            (1000 * 9.81 * R * M.originalSlope) = 1 / M.sinuosityIndex := by
          field_simp
          ring
        rw [key, div_le_one hsipos]
        exact hsi1
    · exact le_refl 1
  have hnot : ¬ stressGuarded M params > 1.2 := by
    intro hgt
    have : (1.2 : ℚ) < 1 := lt_of_lt_of_le hgt hquot
    norm_num at this
  rw [assessEcologicalHealth_eq]
  simp only [if_neg hnot]
  split_ifs <;> decide

/-- The concrete evaluation used by several witnesses: on the unitGeo and
onesMath backends, witnessParams and witnessGeo produce witnessMetrics. -/
lemma witnessEval :
    calculateHydraulics onesMath unitGeo witnessParams witnessGeo =
      Except.ok witnessMetrics := by
  norm_num [calculateHydraulics, lineString, turfLength, unitGeo, onesMath,
    witnessParams, witnessGeo, witnessMetrics]

/-- C3: at a valley line with fewer than two points (here the empty one),
generateMeander does not return an empty path: the guard executes
turf.lineString of the empty coordinate array, whose validation rejects
fewer than two positions, so the call throws instead of failing closed. -/
theorem generateMeander_short_valley_throws :
    generateMeander unitGeo onesMath [] 20 100 20 =
      Except.error "coordinates must be an array of two or more positions" := by
  norm_num [generateMeander, lineString]

/-- C7: at a degenerate valley line (two coincident points, so the
smoothed axis has length 0 and totalSteps is 0), generateMeander does not
emit a single point: the unguarded fraction 0 / 0 is NaN and the
resulting sample is rejected by turf, so the call throws. -/
theorem generateMeander_zero_axis_throws :
    generateMeander unitGeo onesMath [⟨0, 0⟩, ⟨0, 0⟩] 5 100 20 =
      Except.error "coordinates must be an array of two or more positions" := by
  norm_num [generateMeander, lineString, turfLength, unitGeo]

/-- Witness for C1: the sinuosity bound and clamp at a fully concrete
input. -/
theorem calculateHydraulics_sinuosity_spec_witness :
    calculateHydraulics onesMath unitGeo witnessParams witnessGeo =
      Except.ok witnessMetrics ∧
    1 ≤ witnessMetrics.sinuosityIndex ∧
    2 ≤ witnessParams.valleyLine.length :=
  ⟨witnessEval,
    (calculateHydraulics_sinuosity_spec onesMath unitGeo witnessParams witnessGeo).1
      witnessMetrics witnessEval,
    by norm_num [witnessParams]⟩

/-- Witness for C2: with curvature ratio 12.5 and sinuosity 1.3 the
avulsion rule does not fire and the third rule classifies RECOVERING. -/
theorem assessEcologicalHealth_first_match_rules_witness :
    ¬(rcGuarded witnessMetricsB witnessParamsB < 2 ∧
        witnessMetricsB.sinuosityIndex > 1.05) ∧
    (assessEcologicalHealth witnessMetricsB witnessParamsB).health =
      StreamHealth.RECOVERING := by
  have h1 : ¬(rcGuarded witnessMetricsB witnessParamsB < 2 ∧
      witnessMetricsB.sinuosityIndex > 1.05) := by
    norm_num [rcGuarded, witnessMetricsB, witnessParamsB]
  refine ⟨h1, ?_⟩
  exact (((assessEcologicalHealth_first_match_rules witnessMetricsB witnessParamsB).2
    h1).2.1 (by norm_num [witnessMetricsB])).1
    (by constructor <;> norm_num [witnessMetricsB])

/-- Witness for C4: the slope relation and velocity comparison at a fully
concrete input with sinuosity 2. -/
theorem calculateHydraulics_slope_velocity_witness :
    0 ≤ witnessParams.valleySlope ∧
    witnessMetrics.newSlope =
      witnessMetrics.originalSlope / witnessMetrics.sinuosityIndex ∧
    witnessMetrics.newVelocity ≤ witnessMetrics.originalVelocity := by
  have h := calculateHydraulics_slope_velocity onesMath unitGeo witnessParams
    witnessGeo witnessMetrics witnessEval (by norm_num [witnessParams])
  exact ⟨by norm_num [witnessParams], h.1,
    h.2 (by norm_num [witnessParams]) (by norm_num [witnessParams])
      (by norm_num [witnessParams]) (by norm_num [witnessMetrics])⟩

/-- Witness for C8: at bankfull width 0 the classifier output is not
HIGH_RISK. -/
theorem assessEcologicalHealth_zero_width_no_high_risk_witness :
    witnessParamsC.bankfullWidth = 0 ∧
    (assessEcologicalHealth witnessMetricsB witnessParamsC).health ≠
      StreamHealth.HIGH_RISK :=
  ⟨by norm_num [witnessParamsC],
    (assessEcologicalHealth_zero_width_no_high_risk witnessMetricsB witnessParamsC
      (by norm_num [witnessParamsC])).1⟩

/-- Witness for C9: the pipeline at a fully concrete input does not
report the scour regime. -/
theorem pipeline_sediment_never_scour_witness :
    calculateHydraulics onesMath unitGeo witnessParams witnessGeo =
      Except.ok witnessMetrics ∧
    (assessEcologicalHealth witnessMetrics witnessParams).stats.sedimentTransport ≠
      "Degradation (Scour)" :=
  ⟨witnessEval,
    pipeline_sediment_never_scour onesMath unitGeo witnessParams witnessGeo
      witnessMetrics witnessEval⟩

/-- Witness for C10: the warning-shape property at a fully concrete
input. -/
theorem assessEcologicalHealth_warnings_iff_witness :
    (assessEcologicalHealth witnessMetricsB witnessParamsB).warnings.length ≤ 1 ∧
    ((assessEcologicalHealth witnessMetricsB witnessParamsB).warnings ≠ [] ↔
      (assessEcologicalHealth witnessMetricsB witnessParamsB).health =
        StreamHealth.HIGH_RISK ∨
      (assessEcologicalHealth witnessMetricsB witnessParamsB).health =
        StreamHealth.DEGRADED) :=
  assessEcologicalHealth_warnings_iff witnessMetricsB witnessParamsB
